import Mathlib

/-!
Shallow embedding of the StockSync inventory CSV engine
(src/server/routes.ts and the later routes iteration in
src/unnamed/part_006, with storage semantics from src/unnamed/part_004).

JS numbers holding integer quantities/thresholds are modelled as `Int`.
Confidence scores, which the source manipulates in increments of 0.1
(0.3 per exact header match, 0.1 per indicator, thresholds 0.3/0.7,
generic fallback 0.6, filename boost 0.2), are modelled in integer
tenths (`Nat`): 3, 1, 3, 7, 6, 2.
-/

namespace StockSync

/-- Whitespace test used by `String.prototype.trim` (ASCII fragment). -/
def isWS (c : Char) : Bool := c = ' ' || c = '\t' || c = '\n' || c = '\r'

/-- Character-list model of `String.prototype.trim`. -/
def trimChars (cs : List Char) : List Char :=
  ((cs.dropWhile isWS).reverse.dropWhile isWS).reverse

/-- Model of `s.trim()`. -/
def strTrim (s : String) : String := String.mk (trimChars s.data)

/-- Model of `s.toLowerCase()` (ASCII case folding). -/
def strLower (s : String) : String := String.mk (s.data.map Char.toLower)

/-- Does `needle` occur as a contiguous sublist of `hay`? -/
def containsSub (hay needle : List Char) : Bool :=
  match hay with
  | [] => needle.isEmpty
  | _ :: t => needle.isPrefixOf hay || containsSub t needle

/-- Model of `s.includes(sub)`. -/
def strIncludes (s sub : String) : Bool := containsSub s.data sub.data

/-- Numeric value of a decimal digit character. -/
def digitVal (c : Char) : Nat := c.toNat - '0'.toNat

/-- Accumulate the value of a list of decimal digit characters. -/
def valOfDigits (ds : List Char) : Nat :=
  ds.foldl (fun a c => 10 * a + digitVal c) 0

/-- Longest leading run of decimal digits, `none` when there is none. -/
def leadingDigits (cs : List Char) : Option Nat :=
  let ds := cs.takeWhile Char.isDigit
  if ds.isEmpty then none else some (valOfDigits ds)

/-- Model of JS `parseInt(s)` on decimal input: skip leading whitespace,
optional sign, then the longest digit run; `none` models `NaN`.
(The hexadecimal `0x` special case of `parseInt` is not modelled; no
claim depends on it.) -/
def parseIntJS (s : String) : Option Int :=
  let cs := s.data.dropWhile isWS
  match cs with
  | '-' :: rest => (leadingDigits rest).map (fun n => -(n : Int))
  | '+' :: rest => (leadingDigits rest).map (fun n => (n : Int))
  | _ => (leadingDigits cs).map (fun n => (n : Int))

/-- JS `x || y` on numbers: `0` is falsy, every other integer is truthy.
The source reads thresholds as `product.lowStockThreshold || globalThreshold`. -/
def orElseNum (x g : Int) : Int := if x = 0 then g else x

/-- Sales channel (`channel: z.enum(["Amazon", "Shopify"])` in shared/schema). -/
inductive Channel where
  | Amazon
  | Shopify
deriving DecidableEq, Repr

/-- One per-channel quantity entry of a product (shared/schema `channels` items). -/
structure ChannelQuantity where
  channel : Channel
  quantity : Int
deriving DecidableEq, Repr

/-- Product record (shared/schema `products`; `supplierId` is the nullable
reference of src/unnamed/part_002 line 37, seller scoping elided: the
store modelled below holds one tenant's products). -/
structure Product where
  id : Nat
  sku : String
  productName : String
  channels : List ChannelQuantity
  totalQuantity : Int
  lowStockThreshold : Int
  isLowStock : Bool
  supplierId : Option Nat
deriving DecidableEq, Repr

/-- Tenant settings consumed by the engine (globalLowStockThreshold,
emailNotifications of shared/schema `settings`). -/
structure Settings where
  globalLowStockThreshold : Int
  emailNotifications : Bool
deriving DecidableEq, Repr

/-- Resolved column mapping (`mappings` of DetectedFormat in routes.ts). -/
structure Mappings where
  sku : String
  productName : String
  quantity : String
deriving DecidableEq, Repr

/-- Detected platform (`format` field of DetectedFormat). -/
inductive PlatformFormat where
  | amazon
  | shopify
  | generic
deriving DecidableEq, Repr

/-- DetectedFormat of routes.ts lines 32-41; `confidence` in integer tenths. -/
structure DetectedFormat where
  format : PlatformFormat
  channel : Channel
  confidence : Nat
  mappings : Mappings
deriving DecidableEq, Repr

/-- One pass of the per-header scoring loop of `intelligentFormatDetection`
(routes.ts lines 74-95 for Amazon, 110-131 for Shopify), parameterised by
the three exact-match canonical headers and the indicator substrings of the
signature.  Each exact match adds 3 tenths and records the header in the
mapping slot (later duplicates overwrite, as in the source); an indicator
substring hit adds 1 tenth. -/
def signatureStep (exactSku exactName exactQty : String) (indicators : List String)
    (acc : Nat × Mappings) (header : String) : Nat × Mappings :=
  let normalized := strTrim (strLower header)
  let acc := if normalized = exactSku
    then (acc.1 + 3, { acc.2 with sku := header }) else acc
  let acc := if normalized = exactName
    then (acc.1 + 3, { acc.2 with productName := header }) else acc
  let acc := if normalized = exactQty
    then (acc.1 + 3, { acc.2 with quantity := header }) else acc
  if indicators.any (fun ind => strIncludes normalized ind)
    then (acc.1 + 1, acc.2) else acc

/-- Score a signature over the whole header list (the `for` loops of
`intelligentFormatDetection`). -/
def signatureScan (exactSku exactName exactQty : String) (indicators : List String)
    (headers : List String) : Nat × Mappings :=
  headers.foldl (signatureStep exactSku exactName exactQty indicators)
    (0, { sku := "", productName := "", quantity := "" })

/-- Amazon signature scan (routes.ts lines 71-95). -/
def amazonScan (headers : List String) : Nat × Mappings :=
  signatureScan "sku" "product name" "quantity" ["fulfillment", "asin", "fnsku"] headers

/-- Shopify signature scan (routes.ts lines 107-131). -/
def shopifyScan (headers : List String) : Nat × Mappings :=
  signatureScan "variant sku" "title" "variant inventory qty"
    ["variant", "handle", "option"] headers

/-- `smartColumnMapping` (routes.ts lines 158-202): per header, first
unassigned substring match wins per field; a header may serve several fields. -/
def smartColumnMapping (headers : List String) : Mappings :=
  headers.foldl (fun m header =>
    let normalized := strTrim (strLower header)
    let m := if m.sku = "" &&
        (strIncludes normalized "sku" || strIncludes normalized "id" ||
         strIncludes normalized "code" || normalized = "item" ||
         strIncludes normalized "product id")
      then { m with sku := header } else m
    let m := if m.productName = "" &&
        (strIncludes normalized "name" || strIncludes normalized "title" ||
         strIncludes normalized "product" || strIncludes normalized "item name" ||
         strIncludes normalized "description")
      then { m with productName := header } else m
    if m.quantity = "" &&
        (strIncludes normalized "quantity" || strIncludes normalized "qty" ||
         strIncludes normalized "stock" || strIncludes normalized "inventory" ||
         strIncludes normalized "units" || strIncludes normalized "count" ||
         strIncludes normalized "available")
      then { m with quantity := header } else m)
    { sku := "", productName := "", quantity := "" }

/-- `guessChannelFromFilename` (routes.ts lines 204-209). -/
def guessChannelFromFilename (filename : String) : Option Channel :=
  let lower := strLower filename
  if strIncludes lower "amazon" || strIncludes lower "amz" then some Channel.Amazon
  else if strIncludes lower "shopify" || strIncludes lower "shop" then some Channel.Shopify
  else none

/-- `intelligentFormatDetection` (routes.ts lines 43-156).  The baseline
best match is generic with confidence 0.3; each signature replaces it when
its score is strictly greater; below 0.7 the function falls back to generic
smart mapping with confidence 0.6 (the filename passed to the inner channel
guess is the empty string, as in the source). -/
def intelligentFormatDetection (headers : List String) : DetectedFormat :=
  let bestMatch : DetectedFormat :=
    { format := PlatformFormat.generic, channel := Channel.Amazon, confidence := 3,
      mappings := { sku := "", productName := "", quantity := "" } }
  let amazon := amazonScan headers
  let bestMatch := if bestMatch.confidence < amazon.1 then
      { format := PlatformFormat.amazon, channel := Channel.Amazon,
        confidence := amazon.1, mappings := amazon.2 }
    else bestMatch
  let shopify := shopifyScan headers
  let bestMatch := if bestMatch.confidence < shopify.1 then
      { format := PlatformFormat.shopify, channel := Channel.Shopify,
        confidence := shopify.1, mappings := shopify.2 }
    else bestMatch
  if bestMatch.confidence < 7 then
    { format := PlatformFormat.generic,
      channel := (guessChannelFromFilename "").getD Channel.Amazon,
      confidence := 6, mappings := smartColumnMapping headers }
  else bestMatch

/-- Format detection as performed per upload by `parseCSVIntelligently`
(routes.ts lines 229-238): after `intelligentFormatDetection`, a generic
result has its channel replaced by a successful filename guess and its
confidence boosted by 0.2. -/
def detectFormat (headers : List String) (filename : String) : DetectedFormat :=
  let detected := intelligentFormatDetection headers
  if detected.format = PlatformFormat.generic then
    match guessChannelFromFilename filename with
    | some c => { detected with channel := c, confidence := detected.confidence + 2 }
    | none => detected
  else detected

/-- A transformed row (`ParsedRow` of routes.ts lines 25-30): the three
mapped fields, each possibly absent. -/
structure ParsedRow where
  sku : Option String
  productName : Option String
  quantity : Option String
deriving DecidableEq, Repr

/-- JS object indexing `row[col]` over a raw CSV row modelled as an
association list from header name to cell string. -/
def lookupCell (row : List (String × String)) (col : String) : Option String :=
  match row.find? (fun kv => kv.1 = col) with
  | some kv => some kv.2
  | none => none

/-- One mapped field of the row transform (routes.ts lines 261-271):
`if (mapping && row[mapping]) transformed.f = String(row[mapping]).trim()` —
the guard needs both the mapping slot and the cell to be truthy
(non-empty strings). -/
def transformField (row : List (String × String)) (col : String) : Option String :=
  if col = "" then none
  else match lookupCell row col with
    | some v => if v = "" then none else some (strTrim v)
    | none => none

/-- The row transform of `parseCSVIntelligently` (routes.ts lines 257-273). -/
def transformRow (m : Mappings) (row : List (String × String)) : ParsedRow :=
  { sku := transformField row m.sku,
    productName := transformField row m.productName,
    quantity := transformField row m.quantity }

/-- Truthiness of an optional string field (JS `row.f && row.f !== ''`). -/
def fieldTruthy (f : Option String) : Bool :=
  match f with
  | some s => s ≠ ""
  | none => false

/-- Row validation filter of `parseCSVIntelligently` (routes.ts lines
274-287): all three fields present and non-empty, and the quantity parses
(`!isNaN(parseInt(q))`). -/
def isValidRow (r : ParsedRow) : Bool :=
  fieldTruthy r.sku && fieldTruthy r.productName &&
    (fieldTruthy r.quantity &&
      match r.quantity with
      | some q => (parseIntJS q).isSome
      | none => false)

/-- `channels.reduce((sum, c) => sum + c.quantity, 0)`. -/
def sumChannels (chs : List ChannelQuantity) : Int :=
  chs.foldl (fun s c => s + c.quantity) 0

/-- The per-row channel replacement of the upload route (part_006 lines
575-576 / routes.ts lines 392-393): drop every entry of the uploaded
channel, then append the fresh entry. -/
def mergeChannels (chs : List ChannelQuantity) (c : Channel) (q : Int) :
    List ChannelQuantity :=
  chs.filter (fun e => e.channel ≠ c) ++ [{ channel := c, quantity := q }]

/-- Single-tenant product store plus the id source of MemStorage
(part_004 `generateId`/`createProduct`). -/
structure Store where
  products : List Product
  nextId : Nat
deriving DecidableEq, Repr

/-- Per-row merge of the upload route (part_006 lines 565-605 / routes.ts
lines 381-422): look the SKU up; on a hit replace the uploaded channel,
recompute the total, and recompute `isLowStock` with the strict `<` this
legacy path uses; on a miss create the product with the tenant's global
threshold pinned.  `storage.updateProduct` (part_004 lines 196-203) is a
field-wise merge by id. -/
def processRow (settings : Settings) (ch : Channel) (st : Store) (r : ParsedRow) :
    Store :=
  let quantity : Int := match r.quantity with
    | some s => (parseIntJS s).getD 0
    | none => 0
  let sku := r.sku.getD ""
  let name := r.productName.getD ""
  match st.products.find? (fun p => p.sku = sku) with
  | some existingProduct =>
    let updatedChannels := mergeChannels existingProduct.channels ch quantity
    let totalQuantity := sumChannels updatedChannels
    let isLowStock := totalQuantity <
      orElseNum existingProduct.lowStockThreshold settings.globalLowStockThreshold
    { st with products := st.products.map (fun p =>
        if p.id = existingProduct.id then
          { p with channels := updatedChannels, totalQuantity := totalQuantity,
                   isLowStock := isLowStock }
        else p) }
  | none =>
    { products := st.products ++
        [{ id := st.nextId, sku := sku, productName := name,
           channels := [{ channel := ch, quantity := quantity }],
           totalQuantity := quantity,
           lowStockThreshold := settings.globalLowStockThreshold,
           isLowStock := quantity < settings.globalLowStockThreshold,
           supplierId := none }],
      nextId := st.nextId + 1 }

/-- The upload route's row loop over the already-validated rows. -/
def uploadProcess (settings : Settings) (ch : Channel) (st : Store)
    (validRows : List ParsedRow) : Store :=
  validRows.foldl (processRow settings ch) st

/-- Upload response counters (part_006 lines 559-560 and 617-628):
`processedCount` is incremented once per processed valid row;
`skippedCount` is initialised to 0 and never touched. -/
structure UploadResponse where
  processedCount : Nat
  skippedCount : Nat
deriving DecidableEq, Repr

/-- The upload pipeline from transformed raw rows to the mutated store and
the response counters: `parseCSVIntelligently` maps then filters the rows
(routes.ts lines 257-287), the route loops over the survivors, and the
response reports `processedCount = parsedData.length` iterations and the
untouched `skippedCount`. -/
def uploadPipeline (settings : Settings) (m : Mappings) (ch : Channel) (st : Store)
    (rawRows : List (List (String × String))) : Store × UploadResponse :=
  let transformed := rawRows.map (transformRow m)
  let valid := transformed.filter isValidRow
  let finalStore := uploadProcess settings ch st valid
  (finalStore, { processedCount := valid.length, skippedCount := 0 })

/-- Per-product body of `reconcileInventory` (part_006 lines 378-388):
recompute the total from the channel list, pin the effective threshold,
and set `isLowStock` with the inclusive comparison of this authoritative
path (the line-382 comment records the change from `<` to `<=`). -/
def reconcileProduct (globalThreshold : Int) (p : Product) : Product :=
  let totalQuantity := sumChannels p.channels
  let threshold := orElseNum p.lowStockThreshold globalThreshold
  { p with totalQuantity := totalQuantity,
           isLowStock := totalQuantity ≤ threshold,
           lowStockThreshold := threshold }

/-- Whole-tenant reconciliation sweep, product-state part
(`reconcileInventory`, part_006 lines 371-434). -/
def reconcileInventory (globalThreshold : Int) (ps : List Product) : List Product :=
  ps.map (reconcileProduct globalThreshold)

/-- Effective threshold as every mutation path reads it:
`product.lowStockThreshold || globalThreshold`. -/
def effectiveThreshold (p : Product) (globalThreshold : Int) : Int :=
  orElseNum p.lowStockThreshold globalThreshold

/-- Alert decision of the sweep's loop body for one product (part_006
lines 390-394): with the freshly recomputed `isLowStock`, an alert goes
out when the product is low, has a supplier id, tenant email notifications
are on, and the supplier lookup succeeds (`sups` holds the existing
supplier ids).  The emitted pair is (product id, supplier id). -/
def sweepAlertFor (settings : Settings) (sups : List Nat) (globalThreshold : Int)
    (p : Product) : Option (Nat × Nat) :=
  let totalQuantity := sumChannels p.channels
  let threshold := orElseNum p.lowStockThreshold globalThreshold
  let isLowStock := totalQuantity ≤ threshold
  match p.supplierId with
  | some sid =>
    if isLowStock && settings.emailNotifications && sups.contains sid then
      some (p.id, sid)
    else none
  | none => none

/-- Send-alert instructions emitted by one whole-tenant sweep. -/
def reconcileAlerts (settings : Settings) (sups : List Nat) (globalThreshold : Int)
    (ps : List Product) : List (Nat × Nat) :=
  ps.filterMap (sweepAlertFor settings sups globalThreshold)

/-- Alert decision of the periodic auto-check for one product
(`checkAndNotifyLowStock`, part_006 lines 311-362): reads the stored
`totalQuantity` instead of recomputing it. -/
def autoCheckAlertFor (settings : Settings) (sups : List Nat) (p : Product) :
    Option (Nat × Nat) :=
  let totalQuantity := p.totalQuantity
  let threshold := orElseNum p.lowStockThreshold settings.globalLowStockThreshold
  let isLowStock := totalQuantity ≤ threshold
  match p.supplierId with
  | some sid =>
    if isLowStock && sups.contains sid then some (p.id, sid) else none
  | none => none

/-- Send-alert instructions of one periodic auto-check pass over a tenant
(part_006 lines 302-364): a tenant with notifications disabled is skipped
before any product is inspected. -/
def autoCheckAlerts (settings : Settings) (sups : List Nat) (ps : List Product) :
    List (Nat × Nat) :=
  if settings.emailNotifications then ps.filterMap (autoCheckAlertFor settings sups)
  else []

/-- Partial product update accepted by the manual product-update endpoint
(`insertProductSchema.partial()`): absent fields leave the stored value. -/
structure ProductUpdate where
  productName : Option String
  channels : Option (List ChannelQuantity)
  totalQuantity : Option Int
  lowStockThreshold : Option Int
  isLowStock : Option Bool
  supplierId : Option (Option Nat)
deriving DecidableEq, Repr

/-- `storage.updateProduct` spread-merge semantics (part_004 lines
196-203) applied to a partial update. -/
def applyUpdate (p : Product) (u : ProductUpdate) : Product :=
  { p with
    productName := u.productName.getD p.productName,
    channels := u.channels.getD p.channels,
    totalQuantity := u.totalQuantity.getD p.totalQuantity,
    lowStockThreshold := u.lowStockThreshold.getD p.lowStockThreshold,
    isLowStock := u.isLowStock.getD p.isLowStock,
    supplierId := u.supplierId.getD p.supplierId }

/-- The manual product-update endpoint (part_006 lines 745-853): apply the
partial update, recompute `isLowStock` inclusively from the updated total
and threshold, and decide the alert from the before/after state — a
transition into low stock, a supplier assignment to a currently-low
product, or a manual quantity edit to an already-low supplied product.
Returns the stored product and whether a send-alert instruction is
emitted (which also requires the supplier lookup to succeed). -/
def putProduct (settings : Settings) (sups : List Nat) (p : Product)
    (u : ProductUpdate) : Product × Bool :=
  let wasLowStock := p.isLowStock
  let hadSupplier := p.supplierId.isSome
  let product := applyUpdate p u
  let updatedTotalQuantity := product.totalQuantity
  let updatedThreshold :=
    orElseNum product.lowStockThreshold settings.globalLowStockThreshold
  let isCurrentlyLowStock : Bool := decide (updatedTotalQuantity ≤ updatedThreshold)
  let product := if product.isLowStock ≠ isCurrentlyLowStock then
      { product with isLowStock := isCurrentlyLowStock }
    else product
  let becameLowStock := !wasLowStock && isCurrentlyLowStock
  let supplierAdded := !hadSupplier && product.supplierId.isSome
  let wasAlreadyLowAndHasSupplier :=
    wasLowStock && isCurrentlyLowStock && product.supplierId.isSome
  let shouldSendNotification := settings.emailNotifications &&
    product.supplierId.isSome &&
    (becameLowStock || (supplierAdded && isCurrentlyLowStock) ||
      (wasAlreadyLowAndHasSupplier && u.totalQuantity.isSome))
  let supplierFound := match product.supplierId with
    | some sid => sups.contains sid
    | none => false
  (product, shouldSendNotification && supplierFound)

/-- JS `Array.prototype.join(sep)` restricted to the comma separator used
by the export route. -/
def joinComma : List String → String
  | [] => ""
  | [s] => s
  | s :: rest => s ++ "," ++ joinComma rest

/-- Decimal rendering of an integer quantity (`n.toString()`). -/
def intToString (i : Int) : String := toString i

/-- One data row of the CSV export (part_006 lines 718-733 / routes.ts
lines 524-539): the seven field strings joined with commas, no quoting. -/
def exportRow (p : Product) : String :=
  let amazonQty : Int :=
    match p.channels.find? (fun c => c.channel = Channel.Amazon) with
    | some c => c.quantity
    | none => 0
  let shopifyQty : Int :=
    match p.channels.find? (fun c => c.channel = Channel.Shopify) with
    | some c => c.quantity
    | none => 0
  joinComma [p.sku, p.productName, intToString amazonQty, intToString shopifyQty,
    intToString p.totalQuantity, intToString p.lowStockThreshold,
    if p.isLowStock then "Low Stock" else "In Stock"]

/-- The full export body: header row and one row per product, joined with
newlines (`csvRows.map(row => row.join(',')).join('\n')`). -/
def exportCSV (ps : List Product) : String :=
  let headerRow := joinComma ["SKU", "Product Name", "Amazon Quantity",
    "Shopify Quantity", "Total Quantity", "Low Stock Threshold",
    "Stock Status (Low Stock/In Stock)"]
  String.intercalate "\n" (headerRow :: ps.map exportRow)

/-- Naive comma field split: the inverse reading an emitted row as CSV. -/
def splitCommas : List Char → List (List Char)
  | [] => [[]]
  | c :: cs =>
    if c = ',' then [] :: splitCommas cs
    else
      match splitCommas cs with
      | [] => [[c]]
      | f :: r => (c :: f) :: r

/-- A string usable as an unquoted CSV field: free of commas and newlines. -/
def fieldSafe (s : String) : Prop := ',' ∉ s.data ∧ '\n' ∉ s.data

instance (s : String) : Decidable (fieldSafe s) := by
  unfold fieldSafe
  infer_instance

theorem orElseNum_idem (t g : Int) : orElseNum (orElseNum t g) g = orElseNum t g := by
  unfold orElseNum
  split_ifs with h1 h2 <;> simp_all

theorem reconcileProduct_idem (g : Int) (p : Product) :
    reconcileProduct g (reconcileProduct g p) = reconcileProduct g p := by
  simp [reconcileProduct, orElseNum_idem]

/-- Claim C1: after the whole-tenant reconciliation sweep, every product
satisfies isLowStock = (totalQuantity ≤ effectiveThreshold), where the
effective threshold is the product's own lowStockThreshold when that is
truthy (nonzero, mirroring the source's `||` fallback) and the tenant's
global threshold otherwise; a product whose total equals the threshold is
classified low (inclusive boundary). -/
theorem C1_sweep_inclusive_low_stock (g : Int) (ps : List Product) (p : Product)
    (hp : p ∈ reconcileInventory g ps) :
    (p.isLowStock = true ↔ p.totalQuantity ≤ effectiveThreshold p g) ∧
    (p.totalQuantity = effectiveThreshold p g → p.isLowStock = true) := by
  rcases List.mem_map.mp hp with ⟨q, _, rfl⟩
  have hth : effectiveThreshold (reconcileProduct g q) g =
      orElseNum q.lowStockThreshold g := by
    simp [effectiveThreshold, reconcileProduct, orElseNum_idem]
  constructor
  · rw [hth]
    simp [reconcileProduct]
  · intro h
    rw [hth] at h
    simp [reconcileProduct] at h ⊢
    omega

/-- Witness for C1 at a boundary instance: total 10 equals threshold 10,
classified low. -/
theorem C1_sweep_inclusive_low_stock_witness :
    let pY : Product := ⟨1, "X", "W", [⟨Channel.Amazon, 10⟩], 10, 10, true, none⟩
    (pY.isLowStock = true ↔ pY.totalQuantity ≤ effectiveThreshold pY 10) ∧
    (pY.totalQuantity = effectiveThreshold pY 10 → pY.isLowStock = true) :=
  C1_sweep_inclusive_low_stock 10
    [⟨1, "X", "W", [⟨Channel.Amazon, 10⟩], 0, 10, false, none⟩] _ (by decide)

/-- Claim C4: running the whole-tenant sweep twice with no intervening
mutation yields exactly the product state of running it once. -/
theorem C4_sweep_idempotent (g : Int) (ps : List Product) :
    reconcileInventory g (reconcileInventory g ps) = reconcileInventory g ps := by
  induction ps with
  | nil => rfl
  | cons p t ih =>
    simp only [reconcileInventory, List.map_cons] at ih ⊢
    rw [reconcileProduct_idem]
    exact congrArg _ (by simpa [reconcileInventory] using ih)

/-- Claim C7: with tenant email notifications disabled, neither the
reconciliation sweep, the periodic auto-check, nor the manual
product-update endpoint emits a send-alert instruction (and hence no
notification record, which every path creates only after deciding to
send). -/
theorem C7_notifications_disabled_suppresses_alerts (settings : Settings)
    (sups : List Nat) (g : Int) (ps : List Product) (p : Product)
    (u : ProductUpdate) (h : settings.emailNotifications = false) :
    reconcileAlerts settings sups g ps = [] ∧
    autoCheckAlerts settings sups ps = [] ∧
    (putProduct settings sups p u).2 = false := by
  refine ⟨?_, ?_, ?_⟩
  · rw [reconcileAlerts, List.filterMap_eq_nil_iff]
    intro a _
    unfold sweepAlertFor
    cases a.supplierId <;> simp [h]
  · simp [autoCheckAlerts, h]
  · simp [putProduct, h]

/-- Witness for C7: a disabled tenant with a low-stock supplied product
gets no alert from any path. -/
theorem C7_notifications_disabled_suppresses_alerts_witness :
    let settings : Settings := ⟨10, false⟩
    let pLow : Product := ⟨1, "X", "W", [⟨Channel.Amazon, 3⟩], 3, 10, true, some 5⟩
    reconcileAlerts settings [5] 10 [pLow] = [] ∧
    autoCheckAlerts settings [5] [pLow] = [] ∧
    (putProduct settings [5] pLow ⟨none, none, some 2, none, none, none⟩).2 = false :=
  C7_notifications_disabled_suppresses_alerts _ [5] 10 _ _ _ (by decide)

/-- Claim C8: for headers [Item Code, Description, Stock Count] detection
falls back to Generic; the confidence (in tenths) is 6 when the filename
implies no channel and 8 when it implies one, and the smart mapping
resolves sku to Item Code, name to Description, quantity to Stock Count. -/
theorem C8_generic_detection (fn : String) :
    (detectFormat ["Item Code", "Description", "Stock Count"] fn).format =
      PlatformFormat.generic ∧
    (detectFormat ["Item Code", "Description", "Stock Count"] fn).mappings =
      { sku := "Item Code", productName := "Description", quantity := "Stock Count" } ∧
    (guessChannelFromFilename fn = none →
      (detectFormat ["Item Code", "Description", "Stock Count"] fn).confidence = 6) ∧
    (∀ c, guessChannelFromFilename fn = some c →
      (detectFormat ["Item Code", "Description", "Stock Count"] fn).confidence = 8 ∧
      (detectFormat ["Item Code", "Description", "Stock Count"] fn).channel = c) := by
  have hbase : intelligentFormatDetection ["Item Code", "Description", "Stock Count"] =
      { format := PlatformFormat.generic, channel := Channel.Amazon, confidence := 6,
        mappings := { sku := "Item Code", productName := "Description",
                      quantity := "Stock Count" } } := by decide
  cases hg : guessChannelFromFilename fn <;>
    simp [detectFormat, hbase, hg]

/-- Witness for C8: one filename implying no channel, one implying Amazon. -/
theorem C8_generic_detection_witness :
    (detectFormat ["Item Code", "Description", "Stock Count"] "data.csv").confidence = 6 ∧
    (detectFormat ["Item Code", "Description", "Stock Count"] "amazon-export.csv").confidence = 8 :=
  ⟨(C8_generic_detection "data.csv").2.2.1 (by decide),
   ((C8_generic_detection "amazon-export.csv").2.2.2 Channel.Amazon (by decide)).1⟩

/-- Claim C3: the per-row merge removes every prior entry of the uploaded
channel, appends exactly one fresh entry, and leaves every other channel's
entries unchanged; the final conjunct runs the claim's concrete scenario
(Amazon 10, then Shopify 7, then Amazon 4 for the same SKU) through the
upload row loop. -/
theorem C3_merge_replaces_channel (chs : List ChannelQuantity) (c : Channel) (q : Int) :
    (mergeChannels chs c q).filter (fun e => e.channel = c) =
      [{ channel := c, quantity := q }] ∧
    (∀ d, d ≠ c → (mergeChannels chs c q).filter (fun e => e.channel = d) =
      chs.filter (fun e => e.channel = d)) ∧
    processRow ⟨10, true⟩ Channel.Amazon
      (processRow ⟨10, true⟩ Channel.Shopify
        (processRow ⟨10, true⟩ Channel.Amazon ⟨[], 1⟩
          ⟨some "X", some "Widget", some "10"⟩)
        ⟨some "X", some "Widget", some "7"⟩)
      ⟨some "X", some "Widget", some "4"⟩ =
      ⟨[⟨1, "X", "Widget", [⟨Channel.Shopify, 7⟩, ⟨Channel.Amazon, 4⟩], 11, 10,
        false, none⟩], 2⟩ := by
  refine ⟨?_, ?_, by decide⟩
  · rw [mergeChannels, List.filter_append]
    have h1 : List.filter (fun e => e.channel = c)
        (List.filter (fun e => e.channel ≠ c) chs) = [] := by
      rw [List.filter_eq_nil_iff]
      intro a ha
      simp only [List.mem_filter, decide_eq_true_eq] at ha
      simp [ha.2]
    rw [h1]
    simp
  · intro d hd
    rw [mergeChannels, List.filter_append]
    have h2 : List.filter (fun e => e.channel = d)
        [({ channel := c, quantity := q } : ChannelQuantity)] = [] := by
      simp [Ne.symm hd]
    rw [h2, List.append_nil, List.filter_filter]
    apply List.filter_congr
    intro a _
    by_cases had : a.channel = d
    · have hac : a.channel ≠ c := by rw [had]; exact hd
      simp [had, hac, hd]
    · simp [had]

/-- Witness for C3: the other-channels frame conjunct at Shopify ≠ Amazon
on a concrete channel list. -/
theorem C3_merge_replaces_channel_witness :
    (mergeChannels [⟨Channel.Shopify, 7⟩, ⟨Channel.Amazon, 10⟩] Channel.Amazon 4).filter
      (fun e => e.channel = Channel.Shopify) =
    [⟨Channel.Shopify, 7⟩] :=
  by simpa using
    (C3_merge_replaces_channel [⟨Channel.Shopify, 7⟩, ⟨Channel.Amazon, 10⟩]
      Channel.Amazon 4).2.1 Channel.Shopify (by decide)

/-- Claim C2 counterexample: the manual product-update endpoint accepts a
partial update that sets totalQuantity without touching channels
(`storage.updateProduct` is a spread merge), leaving a stored product with
totalQuantity 5 but channel quantities summing to 10 — so the invariant
does not hold after every mutating operation. -/
theorem C2_counterexample :
    (putProduct ⟨10, true⟩ []
      ⟨1, "X", "W", [⟨Channel.Amazon, 10⟩], 10, 10, false, none⟩
      ⟨none, none, some 5, none, none, none⟩).1.totalQuantity ≠
    sumChannels (putProduct ⟨10, true⟩ []
      ⟨1, "X", "W", [⟨Channel.Amazon, 10⟩], 10, 10, false, none⟩
      ⟨none, none, some 5, none, none, none⟩).1.channels := by decide

/-- Claim C2 amended: totalQuantity equals the sum of the channel
quantities after the whole-tenant sweep, after every upload row (creation
or merge), and after a manual update that touches neither channels nor
totalQuantity; a manual update that sets one of them independently can
break the invariant (see the counterexample). -/
theorem C2_amended_total_matches_channels :
    (∀ (g : Int) (ps : List Product) (p : Product), p ∈ reconcileInventory g ps →
      p.totalQuantity = sumChannels p.channels) ∧
    (∀ (settings : Settings) (ch : Channel) (st : Store) (r : ParsedRow),
      (∀ q ∈ st.products, q.totalQuantity = sumChannels q.channels) →
      ∀ p ∈ (processRow settings ch st r).products,
        p.totalQuantity = sumChannels p.channels) ∧
    (∀ (settings : Settings) (sups : List Nat) (p : Product) (u : ProductUpdate),
      p.totalQuantity = sumChannels p.channels →
      u.channels = none → u.totalQuantity = none →
      (putProduct settings sups p u).1.totalQuantity =
        sumChannels (putProduct settings sups p u).1.channels) := by
  refine ⟨?_, ?_, ?_⟩
  · intro g ps p hp
    rcases List.mem_map.mp hp with ⟨q, _, rfl⟩
    simp [reconcileProduct]
  · intro settings ch st r hinv p hp
    cases hfind : st.products.find? (fun p => p.sku = r.sku.getD "") with
    | some existing =>
      simp only [processRow, hfind] at hp
      rcases List.mem_map.mp hp with ⟨q, hq, rfl⟩
      by_cases hid : q.id = existing.id
      · simp [hid]
      · simp only [hid, if_false, ite_false]
        exact hinv q hq
    | none =>
      simp only [processRow, hfind] at hp
      rcases List.mem_append.mp hp with h | h
      · exact hinv p h
      · rcases List.mem_singleton.mp h with rfl
        simp [sumChannels]
  · intro settings sups p u hinv hch ht
    simp only [putProduct, applyUpdate, hch, ht, Option.getD_none]
    split <;> simpa using hinv

/-- Witness for C2 amended, each part at a concrete instance. -/
theorem C2_amended_total_matches_channels_witness :
    ((reconcileProduct 10 ⟨1, "X", "W", [⟨Channel.Amazon, 4⟩], 0, 10, false, none⟩).totalQuantity
      = sumChannels (reconcileProduct 10
        ⟨1, "X", "W", [⟨Channel.Amazon, 4⟩], 0, 10, false, none⟩).channels) ∧
    (∀ p ∈ (processRow ⟨10, true⟩ Channel.Amazon ⟨[], 1⟩
        ⟨some "X", some "W", some "4"⟩).products,
      p.totalQuantity = sumChannels p.channels) ∧
    ((putProduct ⟨10, true⟩ [] ⟨1, "X", "W", [⟨Channel.Amazon, 4⟩], 4, 10, true, none⟩
        ⟨some "V", none, none, none, none, none⟩).1.totalQuantity =
      sumChannels (putProduct ⟨10, true⟩ []
        ⟨1, "X", "W", [⟨Channel.Amazon, 4⟩], 4, 10, true, none⟩
        ⟨some "V", none, none, none, none, none⟩).1.channels) :=
  ⟨C2_amended_total_matches_channels.1 10
      [⟨1, "X", "W", [⟨Channel.Amazon, 4⟩], 0, 10, false, none⟩] _ (by decide),
   C2_amended_total_matches_channels.2.1 ⟨10, true⟩ Channel.Amazon ⟨[], 1⟩
      ⟨some "X", some "W", some "4"⟩ (by intro q hq; cases hq),
   C2_amended_total_matches_channels.2.2 ⟨10, true⟩ []
      ⟨1, "X", "W", [⟨Channel.Amazon, 4⟩], 4, 10, true, none⟩
      ⟨some "V", none, none, none, none, none⟩ (by decide) rfl rfl⟩

/-- Claim C5 (code bug evidence): on an upload whose second row has an
empty quantity cell, the row is rejected by the transform filter, is
excluded from processedCount, and creates no product — but the response's
skippedCount is 0, not 1: the route initialises skippedCount and returns
it without ever incrementing it. -/
theorem C5_skipped_rows_not_counted :
    isValidRow (transformRow ⟨"SKU", "Product Name", "Quantity"⟩
      [("SKU", "B"), ("Product Name", "Gadget"), ("Quantity", "")]) = false ∧
    (uploadPipeline ⟨10, true⟩ ⟨"SKU", "Product Name", "Quantity"⟩ Channel.Amazon ⟨[], 1⟩
      [[("SKU", "A"), ("Product Name", "Widget"), ("Quantity", "5")],
       [("SKU", "B"), ("Product Name", "Gadget"), ("Quantity", "")]]).2.processedCount = 1 ∧
    (uploadPipeline ⟨10, true⟩ ⟨"SKU", "Product Name", "Quantity"⟩ Channel.Amazon ⟨[], 1⟩
      [[("SKU", "A"), ("Product Name", "Widget"), ("Quantity", "5")],
       [("SKU", "B"), ("Product Name", "Gadget"), ("Quantity", "")]]).2.skippedCount = 0 ∧
    (uploadPipeline ⟨10, true⟩ ⟨"SKU", "Product Name", "Quantity"⟩ Channel.Amazon ⟨[], 1⟩
      [[("SKU", "A"), ("Product Name", "Widget"), ("Quantity", "5")],
       [("SKU", "B"), ("Product Name", "Gadget"), ("Quantity", "")]]).1 =
    (uploadPipeline ⟨10, true⟩ ⟨"SKU", "Product Name", "Quantity"⟩ Channel.Amazon ⟨[], 1⟩
      [[("SKU", "A"), ("Product Name", "Widget"), ("Quantity", "5")]]).1 := by decide

/-- Claim C6 counterexample: a product that is already low-stock, is left
completely unchanged by the sweep's recompute, and has an unchanged
supplier still triggers a send-alert instruction from the routine
reconciliation sweep (the sweep alerts on every currently-low supplied
product; its `wasLowStock` variable is never consulted) — refuting the
claim's "no alert from a routine sweep for an already-low product". -/
theorem C6_counterexample :
    reconcileProduct 10 ⟨1, "X", "W", [⟨Channel.Amazon, 3⟩], 3, 10, true, some 5⟩ =
      ⟨1, "X", "W", [⟨Channel.Amazon, 3⟩], 3, 10, true, some 5⟩ ∧
    reconcileAlerts ⟨10, true⟩ [5] 10
      [⟨1, "X", "W", [⟨Channel.Amazon, 3⟩], 3, 10, true, some 5⟩] = [(1, 5)] := by decide

/-- Claim C9 counterexample: five headers — the three exact Amazon matches
plus two containing the indicator substring asin — score 0.3·3 + 0.1·2 =
1.1, and the detection returns that uncapped value as the confidence
(11 tenths), outside [0,1]. -/
theorem C9_confidence_exceeds_one :
    10 < (detectFormat ["sku", "product name", "quantity", "asin a", "asin b"]
      "").confidence := by decide

theorem digitChar_eq_star (n : Nat) (h : 16 ≤ n) : Nat.digitChar n = '*' := by
  rw [Nat.digitChar,
    if_neg (show n ≠ 0 by omega), if_neg (show n ≠ 1 by omega),
    if_neg (show n ≠ 2 by omega), if_neg (show n ≠ 3 by omega),
    if_neg (show n ≠ 4 by omega), if_neg (show n ≠ 5 by omega),
    if_neg (show n ≠ 6 by omega), if_neg (show n ≠ 7 by omega),
    if_neg (show n ≠ 8 by omega), if_neg (show n ≠ 9 by omega),
    if_neg (show n ≠ 10 by omega), if_neg (show n ≠ 11 by omega),
    if_neg (show n ≠ 12 by omega), if_neg (show n ≠ 13 by omega),
    if_neg (show n ≠ 14 by omega), if_neg (show n ≠ 15 by omega)]

theorem digitChar_safe (n : Nat) : Nat.digitChar n ≠ ',' ∧ Nat.digitChar n ≠ '\n' := by
  by_cases h : n < 16
  · interval_cases n <;> decide
  · rw [digitChar_eq_star n (by omega)]
    decide

theorem toDigitsCore_safe (b : Nat) (f : Nat) : ∀ (n : Nat) (ds : List Char),
    (∀ c ∈ ds, c ≠ ',' ∧ c ≠ '\n') →
    ∀ c ∈ Nat.toDigitsCore b f n ds, c ≠ ',' ∧ c ≠ '\n' := by
  induction f with
  | zero =>
    intro n ds hds c hc
    simp only [Nat.toDigitsCore] at hc
    exact hds c hc
  | succ f ih =>
    intro n ds hds c hc
    simp only [Nat.toDigitsCore] at hc
    split at hc
    · rcases List.mem_cons.mp hc with rfl | h
      · exact digitChar_safe _
      · exact hds c h
    · refine ih _ _ ?_ c hc
      intro d hd
      rcases List.mem_cons.mp hd with rfl | h
      · exact digitChar_safe _
      · exact hds d h

theorem natRepr_safe (n : Nat) : ∀ c ∈ (Nat.repr n).data, c ≠ ',' ∧ c ≠ '\n' := by
  intro c hc
  have h : (Nat.repr n).data = Nat.toDigitsCore 10 (n + 1) n [] := rfl
  rw [h] at hc
  exact toDigitsCore_safe 10 (n + 1) n [] (by simp) c hc

theorem intToString_safe (i : Int) : ',' ∉ (intToString i).data ∧ '\n' ∉ (intToString i).data := by
  cases i with
  | ofNat m =>
    constructor <;> intro hc
    · exact (natRepr_safe m ',' hc).1 rfl
    · exact (natRepr_safe m '\n' hc).2 rfl
  | negSucc m =>
    have h : (intToString (Int.negSucc m)).data = '-' :: (Nat.repr (m + 1)).data := by
      show (("-" : String) ++ toString (m + 1)).data = _
      rw [String.data_append]
      rfl
    rw [h]
    constructor <;> intro hc <;> rcases List.mem_cons.mp hc with he | hm
    · exact absurd he (by decide)
    · exact (natRepr_safe (m + 1) _ hm).1 rfl
    · exact absurd he (by decide)
    · exact (natRepr_safe (m + 1) _ hm).2 rfl

theorem splitCommas_no_comma (f : List Char) (hf : ',' ∉ f) : splitCommas f = [f] := by
  induction f with
  | nil => rfl
  | cons a t ih =>
    have ha : a ≠ ',' := fun h => hf (h ▸ List.mem_cons_self a t)
    have ht : ',' ∉ t := fun h => hf (List.mem_cons_of_mem a h)
    simp only [splitCommas, if_neg ha, ih ht]

theorem splitCommas_append_comma (f t : List Char) (hf : ',' ∉ f) :
    splitCommas (f ++ ',' :: t) = f :: splitCommas t := by
  induction f with
  | nil => simp [splitCommas]
  | cons a g ih =>
    have ha : a ≠ ',' := fun h => hf (h ▸ List.mem_cons_self a g)
    have hg : ',' ∉ g := fun h => hf (List.mem_cons_of_mem a h)
    simp only [List.cons_append, splitCommas, if_neg ha, List.append_eq]
    rw [ih hg]

theorem strCommaData (a b : String) : (a ++ "," ++ b).data = a.data ++ ',' :: b.data := by
  rw [String.data_append, String.data_append]
  simp

theorem splitCommas_join7 (s1 s2 s3 s4 s5 s6 s7 : String)
    (h1 : ',' ∉ s1.data) (h2 : ',' ∉ s2.data) (h3 : ',' ∉ s3.data)
    (h4 : ',' ∉ s4.data) (h5 : ',' ∉ s5.data) (h6 : ',' ∉ s6.data)
    (h7 : ',' ∉ s7.data) :
    splitCommas (joinComma [s1, s2, s3, s4, s5, s6, s7]).data =
      [s1.data, s2.data, s3.data, s4.data, s5.data, s6.data, s7.data] := by
  have hu : joinComma [s1, s2, s3, s4, s5, s6, s7] =
      s1 ++ "," ++ (s2 ++ "," ++ (s3 ++ "," ++ (s4 ++ "," ++
        (s5 ++ "," ++ (s6 ++ "," ++ s7))))) := rfl
  rw [hu, strCommaData, splitCommas_append_comma _ _ h1,
    strCommaData, splitCommas_append_comma _ _ h2,
    strCommaData, splitCommas_append_comma _ _ h3,
    strCommaData, splitCommas_append_comma _ _ h4,
    strCommaData, splitCommas_append_comma _ _ h5,
    strCommaData, splitCommas_append_comma _ _ h6,
    splitCommas_no_comma _ h7]

/-- Claim C10: the export writes each product row as its seven field
strings joined with commas, with no quoting; a row whose sku and name are
comma- and newline-free splits back into exactly 7 fields, while a product
name containing a comma yields a row splitting into more than 7 fields. -/
theorem C10_export_unquoted_csv :
    (∀ p : Product, fieldSafe p.sku → fieldSafe p.productName →
      (splitCommas (exportRow p).data).length = 7) ∧
    (∃ p : Product, ',' ∈ p.productName.data ∧
      7 < (splitCommas (exportRow p).data).length) := by
  constructor
  · intro p hsku hname
    show (splitCommas (joinComma [p.sku, p.productName,
      intToString (match p.channels.find? (fun c => c.channel = Channel.Amazon) with
        | some c => c.quantity
        | none => 0),
      intToString (match p.channels.find? (fun c => c.channel = Channel.Shopify) with
        | some c => c.quantity
        | none => 0),
      intToString p.totalQuantity, intToString p.lowStockThreshold,
      if p.isLowStock then "Low Stock" else "In Stock"]).data).length = 7
    rw [splitCommas_join7 _ _ _ _ _ _ _ hsku.1 hname.1 (intToString_safe _).1
      (intToString_safe _).1 (intToString_safe _).1 (intToString_safe _).1
      (by cases h : p.isLowStock <;> simp [h])]
    rfl
  · refine ⟨⟨1, "X", "wid,get", [⟨Channel.Amazon, 3⟩], 3, 10, true, none⟩, ?_, ?_⟩
    · decide
    · decide

/-- Witness for C10 at a concrete comma-free product. -/
theorem C10_export_unquoted_csv_witness :
    (splitCommas (exportRow
      ⟨1, "X", "Widget", [⟨Channel.Amazon, 3⟩], 3, 10, true, none⟩).data).length = 7 :=
  C10_export_unquoted_csv.1
    ⟨1, "X", "Widget", [⟨Channel.Amazon, 3⟩], 3, 10, true, none⟩
    (by decide) (by decide)

theorem putProduct_resolved (settings : Settings) (sups : List Nat) (p : Product)
    (u : ProductUpdate) :
    putProduct settings sups p u =
    ({ applyUpdate p u with isLowStock := decide ((applyUpdate p u).totalQuantity ≤
        orElseNum (applyUpdate p u).lowStockThreshold settings.globalLowStockThreshold) },
     (settings.emailNotifications && (applyUpdate p u).supplierId.isSome &&
       ((!p.isLowStock && decide ((applyUpdate p u).totalQuantity ≤
           orElseNum (applyUpdate p u).lowStockThreshold settings.globalLowStockThreshold)) ||
        (!p.supplierId.isSome && (applyUpdate p u).supplierId.isSome &&
          decide ((applyUpdate p u).totalQuantity ≤
           orElseNum (applyUpdate p u).lowStockThreshold settings.globalLowStockThreshold)) ||
        (p.isLowStock && decide ((applyUpdate p u).totalQuantity ≤
           orElseNum (applyUpdate p u).lowStockThreshold settings.globalLowStockThreshold) &&
           (applyUpdate p u).supplierId.isSome && u.totalQuantity.isSome))) &&
     (match (applyUpdate p u).supplierId with
      | some sid => sups.contains sid
      | none => false)) := by
  simp only [putProduct]
  split
  · rfl
  · next h =>
    rw [ne_eq, not_not] at h
    rw [← h]

/-- Claim C6 amended: the transition-based alert rule (now low, supplier
assigned and existing, notifications on, and a state transition — became
low, supplier just assigned while low, or manual quantity edit of an
already-low supplied product) holds exactly for the manual product-update
endpoint; the reconciliation sweep instead alerts every currently-low
product with an existing supplier whenever notifications are on,
including unchanged already-low products. -/
theorem C6_amended_notification_policy :
    (∀ (settings : Settings) (sups : List Nat) (p : Product) (u : ProductUpdate),
      (putProduct settings sups p u).2 = true ↔
        ((putProduct settings sups p u).1.isLowStock = true ∧
         (∃ sid, (putProduct settings sups p u).1.supplierId = some sid ∧ sid ∈ sups) ∧
         settings.emailNotifications = true ∧
         ((p.isLowStock = false ∧ (putProduct settings sups p u).1.isLowStock = true) ∨
          (p.supplierId = none ∧ ((putProduct settings sups p u).1.supplierId).isSome = true ∧
            p.isLowStock = true) ∨
          (p.isLowStock = true ∧ p.supplierId.isSome = true ∧
            u.totalQuantity.isSome = true)))) ∧
    (∀ (settings : Settings) (sups : List Nat) (g : Int) (p : Product),
      (sweepAlertFor settings sups g p).isSome = true ↔
        (sumChannels p.channels ≤ effectiveThreshold p g ∧
         settings.emailNotifications = true ∧
         ∃ sid, p.supplierId = some sid ∧ sid ∈ sups)) := by
  constructor
  · intro settings sups p u
    rw [putProduct_resolved]
    cases hpost : (applyUpdate p u).supplierId with
    | none => simp [hpost]
    | some sid =>
      have hc : (sups.contains sid = true) ↔ sid ∈ sups := List.elem_iff
      cases hpre : p.supplierId with
      | none =>
        cases hw : p.isLowStock <;> simp [hpost, hpre, hw, hc] <;> tauto
      | some sid0 =>
        cases hw : p.isLowStock <;> simp [hpost, hpre, hw, hc] <;> tauto
  · intro settings sups g p
    cases hsid : p.supplierId with
    | none => simp [sweepAlertFor, hsid]
    | some sid =>
      have hc : (sups.contains sid = true) ↔ sid ∈ sups := List.elem_iff
      simp only [sweepAlertFor, effectiveThreshold, hsid]
      split
      · next hcond =>
        simp only [Bool.and_eq_true, decide_eq_true_eq, hc] at hcond
        simp [hcond]
      · next hcond =>
        simp only [Bool.and_eq_true, decide_eq_true_eq, hc] at hcond
        simp only [Option.isSome_none, Bool.false_eq_true, false_iff]
        intro h
        rcases h with ⟨hlow, hemail, sid1, hsid1, hmem⟩
        rw [Option.some.injEq] at hsid1
        exact hcond ⟨⟨hlow, hemail⟩, hsid1 ▸ hmem⟩

theorem signatureStep_le (e1 e2 e3 : String) (inds : List String)
    (h12 : e1 ≠ e2) (h13 : e1 ≠ e3) (h23 : e2 ≠ e3) (acc : Nat × Mappings)
    (h : String) : (signatureStep e1 e2 e3 inds acc h).1 ≤ acc.1 + 4 := by
  rcases acc with ⟨a, m⟩
  simp only [signatureStep]
  split_ifs <;> simp_all

theorem signatureScan_fold_le (e1 e2 e3 : String) (inds : List String)
    (h12 : e1 ≠ e2) (h13 : e1 ≠ e3) (h23 : e2 ≠ e3) :
    ∀ (hs : List String) (acc : Nat × Mappings),
    (hs.foldl (signatureStep e1 e2 e3 inds) acc).1 ≤ acc.1 + 4 * hs.length := by
  intro hs
  induction hs with
  | nil => intro acc; simp
  | cons h t ih =>
    intro acc
    simp only [List.foldl_cons, List.length_cons]
    have h1 := ih (signatureStep e1 e2 e3 inds acc h)
    have h2 := signatureStep_le e1 e2 e3 inds h12 h13 h23 acc h
    omega

theorem amazonScan_le (hs : List String) : (amazonScan hs).1 ≤ 4 * hs.length := by
  have h := signatureScan_fold_le "sku" "product name" "quantity"
    ["fulfillment", "asin", "fnsku"] (by decide) (by decide) (by decide) hs
    (0, { sku := "", productName := "", quantity := "" })
  simpa [amazonScan, signatureScan] using h

theorem shopifyScan_le (hs : List String) : (shopifyScan hs).1 ≤ 4 * hs.length := by
  have h := signatureScan_fold_le "variant sku" "title" "variant inventory qty"
    ["variant", "handle", "option"] (by decide) (by decide) (by decide) hs
    (0, { sku := "", productName := "", quantity := "" })
  simpa [shopifyScan, signatureScan] using h

theorem detection_confidence_cases (hs : List String) :
    ((intelligentFormatDetection hs).format = PlatformFormat.generic ∧
      (intelligentFormatDetection hs).confidence = 6) ∨
    ((intelligentFormatDetection hs).format ≠ PlatformFormat.generic ∧
      7 ≤ (intelligentFormatDetection hs).confidence ∧
      ((intelligentFormatDetection hs).confidence = (amazonScan hs).1 ∨
       (intelligentFormatDetection hs).confidence = (shopifyScan hs).1)) := by
  simp only [intelligentFormatDetection]
  split_ifs <;>
    first
    | exact Or.inl ⟨rfl, rfl⟩
    | exact Or.inr ⟨(by decide : PlatformFormat.amazon ≠ PlatformFormat.generic),
        by omega, Or.inl rfl⟩
    | exact Or.inr ⟨(by decide : PlatformFormat.shopify ≠ PlatformFormat.generic),
        by omega, Or.inr rfl⟩
    | simp_all

/-- Claim C9 amended: the detection confidence (in tenths) is always at
least 6, but it is not bounded by 1: the correct upper bound is
max 0.8 (0.4 · number of headers) — each header can contribute at most
one 0.3 exact match plus one 0.1 indicator bonus, and the generic
fallback yields 0.6 or, with a filename channel boost, 0.8. -/
theorem C9_amended_confidence_bounds (hs : List String) (fn : String) :
    6 ≤ (detectFormat hs fn).confidence ∧
    (detectFormat hs fn).confidence ≤ max 8 (4 * hs.length) := by
  have hA := amazonScan_le hs
  have hS := shopifyScan_le hs
  have hmax8 := Nat.le_max_left 8 (4 * hs.length)
  have hmaxn := Nat.le_max_right 8 (4 * hs.length)
  rcases detection_confidence_cases hs with ⟨hfmt, hconf⟩ | ⟨hfmt, h7, hsc⟩
  · cases hg : guessChannelFromFilename fn <;>
      simp [detectFormat, hfmt, hconf, hg]
  · simp only [detectFormat, if_neg hfmt]
    rcases hsc with hc | hc <;> rw [hc] at h7 ⊢ <;> omega

/-- Witness for C4 at a concrete two-product store. -/
theorem C4_sweep_idempotent_witness :
    reconcileInventory 10 (reconcileInventory 10
      [⟨1, "X", "W", [⟨Channel.Amazon, 3⟩], 0, 0, false, none⟩,
       ⟨2, "Y", "V", [⟨Channel.Shopify, 20⟩], 0, 10, true, some 5⟩]) =
    reconcileInventory 10
      [⟨1, "X", "W", [⟨Channel.Amazon, 3⟩], 0, 0, false, none⟩,
       ⟨2, "Y", "V", [⟨Channel.Shopify, 20⟩], 0, 10, true, some 5⟩] :=
  C4_sweep_idempotent 10
    [⟨1, "X", "W", [⟨Channel.Amazon, 3⟩], 0, 0, false, none⟩,
     ⟨2, "Y", "V", [⟨Channel.Shopify, 20⟩], 0, 10, true, some 5⟩]

/-- Witness for the amended C6: a manual quantity edit of an already-low
supplied product fires the transition rule. -/
theorem C6_amended_notification_policy_witness :
    (putProduct ⟨10, true⟩ [5]
      ⟨1, "X", "W", [⟨Channel.Amazon, 3⟩], 3, 10, true, some 5⟩
      ⟨none, none, some 2, none, none, none⟩).2 = true :=
  (C6_amended_notification_policy.1 ⟨10, true⟩ [5]
    ⟨1, "X", "W", [⟨Channel.Amazon, 3⟩], 3, 10, true, some 5⟩
    ⟨none, none, some 2, none, none, none⟩).mpr
    ⟨by decide, ⟨5, by decide, by decide⟩, rfl,
     Or.inr (Or.inr ⟨rfl, rfl, rfl⟩)⟩

/-- Witness for the amended C9 at a concrete header list and filename. -/
theorem C9_amended_confidence_bounds_witness :
    6 ≤ (detectFormat ["SKU", "Product Name", "Quantity"] "stock.csv").confidence ∧
    (detectFormat ["SKU", "Product Name", "Quantity"] "stock.csv").confidence ≤
      max 8 (4 * (["SKU", "Product Name", "Quantity"] : List String).length) :=
  C9_amended_confidence_bounds ["SKU", "Product Name", "Quantity"] "stock.csv"

end StockSync
